import Mathlib

/-!
Shallow embedding of the incremental-extraction engine of `tap-hubspot`
(`src/tap_hubspot/client.py`): the sync-mode selector, the URL-parameter and
request-payload builders, next-page-token extraction and record
post-processing, together with theorems settling the specification claims.

Modelling conventions:
* `datetime.datetime` values are modelled as epoch milliseconds (`Int`);
  the ISO-string parsers `datetime.fromisoformat` and `strptime_to_utc`
  are the external bijection between the wire strings and these integers,
  so context fields that the code parses are carried already-parsed.
  `datetime.timedelta(seconds=1)` is `+ 1000`.
* Python dictionaries with fixed keys become structures; dictionaries with
  dynamic keys become association lists.  `dict.get` on a possibly missing
  key returns an `Option`.
* Python truthiness of an optional string (`if x:`) is `pyTruthyStr`.
* A raised exception (`KeyError`, `TypeError` from parsing `None`,
  `AttributeError` on `None.get`) is the `none` of an `Option` result or
  the `error` of an `Except` result.
* `self.logger.warning(...)` calls are counted (`warnings` field).
-/

deriving instance DecidableEq for Except

namespace TapHubspot

/-- `datetime.datetime`, modelled as epoch milliseconds. -/
abbrev PyDateTime := Int

/-- `singer_sdk.streams.core.REPLICATION_INCREMENTAL`. -/
def REPLICATION_INCREMENTAL : String := "INCREMENTAL"

/-- Python truthiness of an optional string: `None` and `""` are falsy. -/
def pyTruthyStr : Option String → Bool
  | none => false
  | some s => s != ""

/-- Python `int(...)` on a token string: fails (raises) unless the
string is a non-empty run of decimal digits, in which case it parses the
numeral. -/
def pyInt (s : String) : Option Nat :=
  if s = "" then none
  else if s.data.all (fun c => c.isDigit) then
    some (s.data.foldl (fun n c => n * 10 + (c.toNat - 48)) 0)
  else none

/--
The per-stream configuration and per-call context consumed by the methods of
`HubspotStream` / `DynamicIncrementalHubspotStream`:
* `replicationMethod` — `self.replication_method`;
* `replicationKey` — `self.replication_key` (`none` = unset);
* `startingReplicationValue` — `self.get_starting_replication_key_value(context)`,
  already parsed to a timestamp (`none` = no / falsy starting value);
* `hasIncrementalPath` — `hasattr(self, "incremental_path")`;
* `incrementalPath` — `self.incremental_path` (read only when the attribute
  exists);
* `progressMarkers` — `self.get_context_state(context).get("progress_markers")`
  (outer `Option`) and its `"replication_key_value"` entry (inner `Option`),
  already parsed to a timestamp;
* `hsProperties` — the keys of `self.hs_properties`.
-/
structure StreamCfg where
  replicationMethod : String
  replicationKey : Option String
  startingReplicationValue : Option PyDateTime
  hasIncrementalPath : Bool
  incrementalPath : String
  progressMarkers : Option (Option PyDateTime)
  hsProperties : List String
deriving DecidableEq, Repr

/-- `DynamicIncrementalHubspotStream._is_incremental_search`:
`replication_method == REPLICATION_INCREMENTAL and
get_starting_replication_key_value(context) and
hasattr(self, "incremental_path") and self.incremental_path`. -/
def _is_incremental_search (cfg : StreamCfg) : Bool :=
  (cfg.replicationMethod == REPLICATION_INCREMENTAL)
    && cfg.startingReplicationValue.isSome
    && cfg.hasIncrementalPath
    && (cfg.incrementalPath != "")

/-- The two pagination modes of the spec's Sync Mode Selector. -/
inductive SyncMode where
  | SEARCH
  | LIST
deriving DecidableEq, Repr

/-- The Sync Mode Selector: `SEARCH` exactly when
`_is_incremental_search` holds (the search branch of `get_url_params`,
`prepare_request` and `prepare_request_payload` is taken), `LIST`
otherwise. -/
def select_mode (cfg : StreamCfg) : SyncMode :=
  if _is_incremental_search cfg then SyncMode.SEARCH else SyncMode.LIST

/-- Modelled from the spec (§4.5 Sync Mode Selector): the three conditions
under which the spec says SEARCH mode is selected — replication is
incremental, a starting replication value is available, and the entity
declares a non-empty search endpoint path. -/
def specSearchConditions (cfg : StreamCfg) : Prop :=
  cfg.replicationMethod = REPLICATION_INCREMENTAL
    ∧ cfg.startingReplicationValue.isSome = true
    ∧ (cfg.hasIncrementalPath = true ∧ cfg.incrementalPath ≠ "")

/-- A URL query-parameter value (`params` dict values are the int `100` or
strings). -/
inductive ParamValue where
  | nat : Nat → ParamValue
  | str : String → ParamValue
deriving DecidableEq, Repr

/-- `HubspotStream.get_url_params`: `limit=100`; `after` = token when the
token is truthy; when `self.replication_key` is truthy, `sort="asc"` and
`order_by=<replication_key>`. -/
def get_url_params (cfg : StreamCfg) (next_page_token : Option String) :
    List (String × ParamValue) :=
  let params : List (String × ParamValue) := [("limit", ParamValue.nat 100)]
  let params :=
    if pyTruthyStr next_page_token then
      params ++ [("after", ParamValue.str (next_page_token.getD ""))]
    else params
  if pyTruthyStr cfg.replicationKey then
    params ++ [("sort", ParamValue.str "asc"),
      ("order_by", ParamValue.str (cfg.replicationKey.getD ""))]
  else params

/-- `DynamicHubspotStream.get_url_params`: the base parameters plus a
comma-joined `properties` entry when `self.hs_properties` is truthy
(non-empty). -/
def dyn_get_url_params (cfg : StreamCfg) (next_page_token : Option String) :
    List (String × ParamValue) :=
  let params := get_url_params cfg next_page_token
  if cfg.hsProperties != [] then
    params ++ [("properties", ParamValue.str (String.intercalate "," cfg.hsProperties))]
  else params

/-- `DynamicIncrementalHubspotStream.get_url_params`: the empty dict in
incremental-search mode, otherwise the inherited parameters. -/
def incremental_get_url_params (cfg : StreamCfg) (next_page_token : Option String) :
    List (String × ParamValue) :=
  if _is_incremental_search cfg then [] else dyn_get_url_params cfg next_page_token

/-- The `paging.next` object of a response envelope. -/
structure PagingNext where
  after : Option String
deriving DecidableEq, Repr

/-- The `paging` object of a response envelope. -/
structure Paging where
  next : Option PagingNext
deriving DecidableEq, Repr

/-- A response envelope, restricted to the fields `get_next_page_token`
reads. -/
structure ApiResponse where
  paging : Option Paging
deriving DecidableEq, Repr

/-- `HubspotStream.get_next_page_token`: if `resp_json.get("paging")` is not
`None`, return `resp_json.get("paging", \x7b\x7d).get("next", \x7b\x7d).get("after")`,
else `None`. -/
def get_next_page_token (resp : ApiResponse) : Option String :=
  match resp.paging with
  | some _ => (((resp.paging.getD ⟨none⟩).next).getD ⟨none⟩).after
  | none => none

/-- A record row: the nested `properties` dict (absent / `None` when
`none`; values may be JSON `null`) and the remaining top-level entries. -/
structure Row where
  properties : Option (List (String × Option String))
  topLevel : List (String × Option String)
deriving DecidableEq, Repr

/-- `row[k] = v` on the top-level dict: replace the first binding of `k`,
or append one. -/
def setKey (l : List (String × Option String)) (k : String) (v : Option String) :
    List (String × Option String) :=
  match l with
  | [] => [(k, v)]
  | (k₂, v₂) :: rest =>
    if k₂ = k then (k, v) :: rest else (k₂, v₂) :: setKey rest k v

/-- `DynamicIncrementalHubspotStream.post_process`: when
`self.replication_key` is truthy, `val = None`; if
`props := row.get("properties")` is truthy, `val = props[replication_key]`
(a `KeyError`, modelled as `Except.error ()`, when the key is missing);
finally `row[replication_key] = val` and the row is returned. -/
def post_process (replicationKey : Option String) (row : Row) : Except Unit Row :=
  if pyTruthyStr replicationKey then
    let rk := replicationKey.getD ""
    match row.properties with
    | some props =>
      if props != [] then
        match List.lookup rk props with
        | some v => Except.ok { row with topLevel := setKey row.topLevel rk v }
        | none => Except.error ()
      else Except.ok { row with topLevel := setKey row.topLevel rk none }
    | none => Except.ok { row with topLevel := setKey row.topLevel rk none }
  else Except.ok row

/-- `str(int(self.date_filter.timestamp() * 1000))`: the date filter as an
epoch-milliseconds string. -/
def epoch_ts (df : PyDateTime) : String := toString df

/-- The fixed fields of the search request body built by `body.update` in
`prepare_request_payload`, together with the optional `after` entry. -/
structure SearchBody where
  after : Option String
  filterPropertyName : Option String
  filterOperator : String
  filterValue : String
  sortPropertyName : Option String
  sortDirection : String
  limit : Nat
  properties : List String
deriving DecidableEq, Repr

/-- The body fields set by `body.update({...})`, with `after` carried from
the earlier `body["after"] = next_page_token` when present. -/
def searchBodyFields (cfg : StreamCfg) (after : Option String) (df : PyDateTime) :
    SearchBody :=
  { after := after
    filterPropertyName := cfg.replicationKey
    filterOperator := "GTE"
    filterValue := epoch_ts df
    sortPropertyName := cfg.replicationKey
    sortDirection := "ASCENDING"
    limit := 100
    properties := cfg.hsProperties }

/-- The outcome of one `prepare_request_payload` call: the updated
`self.date_filter`, the returned body (`none` = the empty dict of the
non-search branch), and the number of `self.logger.warning` calls made. -/
structure PayloadResult where
  date_filter : Option PyDateTime
  body : Option SearchBody
  warnings : Nat
deriving DecidableEq, Repr

/-- `DynamicIncrementalHubspotStream.prepare_request_payload`.
`date_filter` is `self.date_filter` on entry (`none` before first
initialization).  The outer `Option` is `none` when the Python call would
raise (parsing `None`, `int()` on a non-numeral, `.get` on `None`). -/
def prepare_request_payload (cfg : StreamCfg) (date_filter : Option PyDateTime)
    (next_page_token : Option String) : Option PayloadResult :=
  if _is_incremental_search cfg then
    match (match date_filter with
           | none => cfg.startingReplicationValue
           | some d => some d) with
    | none => none
    | some df =>
      if pyTruthyStr next_page_token then
        let t := next_page_token.getD ""
        match pyInt t with
        | none => none
        | some n =>
          if n + 100 ≥ 10000 then
            match cfg.progressMarkers with
            | none => none
            | some none => none
            | some (some next_date_filter) =>
                if df = next_date_filter then
                  let df₂ := df + 1000
                  some ⟨some df₂, some (searchBodyFields cfg none df₂), 2⟩
                else
                  some ⟨some next_date_filter,
                    some (searchBodyFields cfg none next_date_filter), 1⟩
          else
            some ⟨some df, some (searchBodyFields cfg (some t) df), 0⟩
      else
        some ⟨some df, some (searchBodyFields cfg none df), 0⟩
  else
    some ⟨date_filter, none, 0⟩

/-- A placeholder body used only as the `Option.getD` default when
projecting fields out of an `Option SearchBody` that is known to be
`some`. -/
def emptyBody : SearchBody :=
  { after := none
    filterPropertyName := none
    filterOperator := ""
    filterValue := ""
    sortPropertyName := none
    sortDirection := ""
    limit := 0
    properties := [] }

/-- `pyInt` succeeds only on non-empty strings. -/
theorem pyInt_ne_empty {t : String} {n : Nat} (h : pyInt t = some n) : t ≠ "" := by
  intro he
  rw [he] at h
  simp [pyInt] at h

/-- A stream configuration in incremental-search (SEARCH) mode whose
progress marker (2023-06-02T00:00:00Z) differs from the date filter used
in the examples (2023-06-01T00:00:00Z). -/
def cfgSearchEx : StreamCfg :=
  { replicationMethod := "INCREMENTAL"
    replicationKey := some "lastmodifieddate"
    startingReplicationValue := some 1685577600000
    hasIncrementalPath := true
    incrementalPath := "/crm/v3/objects/contacts/search"
    progressMarkers := some (some 1685664000000)
    hsProperties := ["lastmodifieddate", "hs_object_id"] }

/-- A SEARCH-mode configuration whose progress marker equals the
2023-06-01T00:00:00Z date filter used in the examples. -/
def cfgEqualMarker : StreamCfg :=
  { replicationMethod := "INCREMENTAL"
    replicationKey := some "lastmodifieddate"
    startingReplicationValue := some 1685577600000
    hasIncrementalPath := true
    incrementalPath := "/crm/v3/objects/contacts/search"
    progressMarkers := some (some 1685577600000)
    hsProperties := ["lastmodifieddate", "hs_object_id"] }

/-- A SEARCH-mode configuration carrying a stale progress marker (epoch 0)
strictly below the current date filter. -/
def cfgStale : StreamCfg :=
  { replicationMethod := "INCREMENTAL"
    replicationKey := some "lastmodifieddate"
    startingReplicationValue := some 1696118400000
    hasIncrementalPath := true
    incrementalPath := "/crm/v3/objects/contacts/search"
    progressMarkers := some (some 0)
    hsProperties := ["lastmodifieddate"] }

/-- A LIST-mode configuration (full-table replication, no search path)
with a replication key configured. -/
def cfgList : StreamCfg :=
  { replicationMethod := "FULL_TABLE"
    replicationKey := some "lastmodifieddate"
    startingReplicationValue := none
    hasIncrementalPath := false
    incrementalPath := ""
    progressMarkers := none
    hsProperties := ["lastmodifieddate"] }

/-- C5: the mode selector returns SEARCH if and only if the replication
method is incremental, a starting replication value is available, and the
entity declares a non-empty search endpoint path; in every other case it
returns LIST. -/
theorem C5_mode_selector (cfg : StreamCfg) :
    (select_mode cfg = SyncMode.SEARCH ↔ specSearchConditions cfg)
      ∧ (¬ specSearchConditions cfg → select_mode cfg = SyncMode.LIST) := by
  have hiff : _is_incremental_search cfg = true ↔ specSearchConditions cfg := by
    simp [_is_incremental_search, specSearchConditions, Bool.and_eq_true,
      and_assoc]
  constructor
  · by_cases h : _is_incremental_search cfg = true
    · simp [select_mode, h, hiff.mp h]
    · have hf : _is_incremental_search cfg = false := by
        cases hh : _is_incremental_search cfg
        · rfl
        · exact absurd hh h
      simp [select_mode, hf]
      exact fun hc => h (hiff.mpr hc)
  · intro hc
    have hf : _is_incremental_search cfg = false := by
      cases hh : _is_incremental_search cfg
      · rfl
      · exact absurd (hiff.mp hh) hc
    simp [select_mode, hf]

/-- Witness for C5 at a concrete SEARCH-mode configuration. -/
theorem C5_mode_selector_witness : select_mode cfgSearchEx = SyncMode.SEARCH :=
  (C5_mode_selector cfgSearchEx).1.mpr ⟨rfl, rfl, rfl, by decide⟩

/-- C6: `get_next_page_token` returns exactly the value found along
`paging.next.after`, and an absent token (`none`, the pagination
termination signal) when `paging`, `paging.next` or `paging.next.after`
is absent. -/
theorem C6_next_page_token (resp : ApiResponse) :
    get_next_page_token resp =
      resp.paging.bind (fun p => p.next.bind (fun nxt => nxt.after)) := by
  rcases resp with ⟨paging⟩
  cases paging with
  | none => rfl
  | some p =>
    cases p with
    | mk nxt =>
      cases nxt with
      | none => rfl
      | some pn => rfl

/-- C10: whenever the incremental-search condition holds, the overridden
`get_url_params` returns the empty mapping. -/
theorem C10_search_mode_empty_url_params (cfg : StreamCfg) (tok : Option String)
    (h : _is_incremental_search cfg = true) :
    incremental_get_url_params cfg tok = [] := by
  simp [incremental_get_url_params, h]

/-- Witness for C10 at a concrete SEARCH-mode configuration. -/
theorem C10_witness : incremental_get_url_params cfgSearchEx (some "100") = [] :=
  C10_search_mode_empty_url_params cfgSearchEx (some "100") (by decide)

/-- C8 counterexample: with replication key `lastmodifieddate`, the LIST
parameters carry `sort = "asc"` (the literal direction string), not
`sort = <cursor>` as the claim states. -/
theorem C8_counterexample :
    List.lookup "sort" (get_url_params cfgList (some "100"))
        = some (ParamValue.str "asc")
      ∧ List.lookup "sort" (get_url_params cfgList (some "100"))
        ≠ some (ParamValue.str "lastmodifieddate") := by
  constructor
  · decide
  · decide

/-- C8 (amended): LIST parameters always carry `limit = 100`; `after`
equals the prior page token exactly when that token is truthy (present and
non-empty); and when a replication cursor exists the parameters carry
`sort = "asc"` and `order_by = <cursor>`. -/
theorem C8_amended_list_params (cfg : StreamCfg) (tok : Option String) :
    List.lookup "limit" (get_url_params cfg tok) = some (ParamValue.nat 100)
      ∧ (pyTruthyStr tok = true →
          List.lookup "after" (get_url_params cfg tok)
            = some (ParamValue.str (tok.getD "")))
      ∧ (pyTruthyStr tok = false →
          List.lookup "after" (get_url_params cfg tok) = none)
      ∧ (pyTruthyStr cfg.replicationKey = true →
          List.lookup "sort" (get_url_params cfg tok) = some (ParamValue.str "asc")
            ∧ List.lookup "order_by" (get_url_params cfg tok)
              = some (ParamValue.str (cfg.replicationKey.getD ""))) := by
  by_cases h₁ : pyTruthyStr tok = true
  · by_cases h₂ : pyTruthyStr cfg.replicationKey = true
    · simp [get_url_params, h₁, h₂, List.lookup]
    · simp [get_url_params, h₁, h₂, List.lookup]
  · by_cases h₂ : pyTruthyStr cfg.replicationKey = true
    · simp [get_url_params, h₁, h₂, List.lookup]
    · simp [get_url_params, h₁, h₂, List.lookup]

/-- Witness for the amended C8 at a concrete configuration and token. -/
theorem C8_amended_witness :
    List.lookup "after" (get_url_params cfgList (some "100"))
        = some (ParamValue.str "100")
      ∧ List.lookup "order_by" (get_url_params cfgList (some "100"))
        = some (ParamValue.str "lastmodifieddate") :=
  ⟨(C8_amended_list_params cfgList (some "100")).2.1 (by decide),
    ((C8_amended_list_params cfgList (some "100")).2.2.2 (by decide)).2⟩

/-- A row whose nested properties exist but lack the cursor field. -/
def rowMissingCursor : Row :=
  { properties := some [("hs_object_id", some "42")]
    topLevel := [("id", some "42")] }

/-- A row whose nested properties contain the cursor field. -/
def rowWithCursor : Row :=
  { properties := some [("lastmodifieddate", some "2023-01-01T00:00:00Z")]
    topLevel := [] }

/-- C4 counterexample: when the properties map is present but lacks the
cursor field, `post_process` raises a `KeyError` (`Except.error`) instead
of returning the record with a null top-level cursor field, contradicting
the claim. -/
theorem C4_counterexample :
    post_process (some "lastmodifieddate") rowMissingCursor = Except.error ()
      ∧ post_process (some "lastmodifieddate") rowMissingCursor
        ≠ Except.ok (Row.mk (some [("hs_object_id", some "42")])
            [("id", some "42"), ("lastmodifieddate", none)]) := by
  constructor
  · decide
  · decide

/-- C4 (amended): for every row and configured cursor field,
`post_process` returns the record with a top-level cursor field equal to
the nested properties value when that field is present, and equal to null
when the whole properties map is absent or empty; when the properties map
is present and non-empty but lacks the field, the call raises instead. -/
theorem C4_amended_post_process (rk : String) (row : Row) (v : Option String)
    (hrk : rk ≠ "")
    (h : (row.properties = none ∧ v = none)
      ∨ (row.properties = some [] ∧ v = none)
      ∨ (∃ props, row.properties = some props ∧ props ≠ []
          ∧ List.lookup rk props = some v)) :
    post_process (some rk) row
      = Except.ok { row with topLevel := setKey row.topLevel rk v } := by
  have htr : pyTruthyStr (some rk) = true := by
    simp [pyTruthyStr, hrk]
  rcases h with ⟨hp, hv⟩ | ⟨hp, hv⟩ | ⟨props, hp, hne, hlk⟩
  · subst hv
    simp [post_process, htr, hp]
  · subst hv
    simp [post_process, htr, hp]
  · have hbne : (props != []) = true := by
      simpa using hne
    simp [post_process, htr, hp, hbne, hlk]

/-- Witness for the amended C4: the cursor value is copied to the top
level. -/
theorem C4_amended_witness :
    post_process (some "lastmodifieddate") rowWithCursor
      = Except.ok (Row.mk (some [("lastmodifieddate", some "2023-01-01T00:00:00Z")])
          [("lastmodifieddate", some "2023-01-01T00:00:00Z")]) :=
  C4_amended_post_process "lastmodifieddate" rowWithCursor
    (some "2023-01-01T00:00:00Z") (by decide)
    (Or.inr (Or.inr ⟨[("lastmodifieddate", some "2023-01-01T00:00:00Z")],
      rfl, by decide, by decide⟩))

/-- C1: in SEARCH mode, when the prior page token `t` satisfies
`int(t) + 100 >= 10000` and the progress marker's cursor value `m`
differs from the current date filter `d`, the produced body omits
`after`, the date filter is set to `m`, and the body's filter value is
the new date filter in epoch milliseconds. -/
theorem C1_rollover_marker_differs (cfg : StreamCfg) (d m : PyDateTime)
    (t : String) (n : Nat)
    (hmode : _is_incremental_search cfg = true)
    (hparse : pyInt t = some n)
    (hcap : 10000 ≤ n + 100)
    (hmark : cfg.progressMarkers = some (some m))
    (hne : m ≠ d) :
    prepare_request_payload cfg (some d) (some t)
        = some ⟨some m, some (searchBodyFields cfg none m), 1⟩
      ∧ (searchBodyFields cfg none m).after = none
      ∧ (searchBodyFields cfg none m).filterValue = epoch_ts m := by
  have ht : pyTruthyStr (some t) = true := by
    simp [pyTruthyStr, pyInt_ne_empty hparse]
  refine ⟨?_, rfl, rfl⟩
  simp [prepare_request_payload, hmode, ht, hparse, hmark, hcap, Ne.symm hne]

/-- Witness for C1 at concrete inputs (token 9905, date filter
2023-06-01, marker 2023-06-02). -/
theorem C1_witness :
    prepare_request_payload cfgSearchEx (some 1685577600000) (some "9905")
        = some ⟨some 1685664000000, some (searchBodyFields cfgSearchEx none 1685664000000), 1⟩
      ∧ (searchBodyFields cfgSearchEx none 1685664000000).after = none
      ∧ (searchBodyFields cfgSearchEx none 1685664000000).filterValue = epoch_ts 1685664000000 :=
  C1_rollover_marker_differs cfgSearchEx 1685577600000 1685664000000 "9905" 9905
    (by decide) (by decide) (by decide) rfl (by decide)

/-- C2: in SEARCH mode, when the rollover fires and the progress marker's
cursor value equals the current date filter `d`, the new date filter is
`d` plus one second (1000 ms), the body omits `after`, and the warning
count of the produced result is positive (two warnings are logged). -/
theorem C2_rollover_marker_equal (cfg : StreamCfg) (d : PyDateTime)
    (t : String) (n : Nat)
    (hmode : _is_incremental_search cfg = true)
    (hparse : pyInt t = some n)
    (hcap : 10000 ≤ n + 100)
    (hmark : cfg.progressMarkers = some (some d)) :
    prepare_request_payload cfg (some d) (some t)
        = some ⟨some (d + 1000), some (searchBodyFields cfg none (d + 1000)), 2⟩
      ∧ (searchBodyFields cfg none (d + 1000)).after = none
      ∧ 0 < (PayloadResult.mk (some (d + 1000))
          (some (searchBodyFields cfg none (d + 1000))) 2).warnings := by
  have ht : pyTruthyStr (some t) = true := by
    simp [pyTruthyStr, pyInt_ne_empty hparse]
  refine ⟨?_, rfl, by norm_num⟩
  simp [prepare_request_payload, hmode, ht, hparse, hmark, hcap]

/-- Witness for C2 at concrete inputs (token 9905, marker equal to the
date filter). -/
theorem C2_witness :
    prepare_request_payload cfgEqualMarker (some 1685577600000) (some "9905")
        = some ⟨some (1685577600000 + 1000),
            some (searchBodyFields cfgEqualMarker none (1685577600000 + 1000)), 2⟩
      ∧ (searchBodyFields cfgEqualMarker none (1685577600000 + 1000)).after = none
      ∧ 0 < (PayloadResult.mk (some (1685577600000 + 1000))
          (some (searchBodyFields cfgEqualMarker none (1685577600000 + 1000))) 2).warnings :=
  C2_rollover_marker_equal cfgEqualMarker 1685577600000 "9905" 9905
    (by decide) (by decide) (by decide) rfl

/-- C3: in SEARCH mode, when the prior page token `t` satisfies
`int(t) + 100 < 10000`, the body carries `after = t` unmodified and the
date filter is unchanged by the call. -/
theorem C3_safe_window (cfg : StreamCfg) (d : PyDateTime) (t : String) (n : Nat)
    (hmode : _is_incremental_search cfg = true)
    (hparse : pyInt t = some n)
    (hcap : n + 100 < 10000) :
    prepare_request_payload cfg (some d) (some t)
        = some ⟨some d, some (searchBodyFields cfg (some t) d), 0⟩
      ∧ (searchBodyFields cfg (some t) d).after = some t := by
  have ht : pyTruthyStr (some t) = true := by
    simp [pyTruthyStr, pyInt_ne_empty hparse]
  refine ⟨?_, rfl⟩
  simp [prepare_request_payload, hmode, ht, hparse, Nat.not_le.mpr hcap]

/-- Witness for C3 at concrete inputs (token 200, inside the safe
window). -/
theorem C3_witness :
    prepare_request_payload cfgSearchEx (some 1685577600000) (some "200")
        = some ⟨some 1685577600000, some (searchBodyFields cfgSearchEx (some "200") 1685577600000), 0⟩
      ∧ (searchBodyFields cfgSearchEx (some "200") 1685577600000).after = some "200" :=
  C3_safe_window cfgSearchEx 1685577600000 "200" 200 (by decide) (by decide) (by decide)

/-- C7: in SEARCH mode, every successfully produced payload carries a
body with a GTE filter on the replication cursor whose value is the
(current) date filter in epoch milliseconds, an ascending sort on the
cursor, limit 100, and the full resolved property-name list. -/
theorem C7_search_body_shape (cfg : StreamCfg) (df : Option PyDateTime)
    (tok : Option String) (res : PayloadResult)
    (hmode : _is_incremental_search cfg = true)
    (hres : prepare_request_payload cfg df tok = some res) :
    res.body.isSome = true
      ∧ res.date_filter.isSome = true
      ∧ (res.body.getD emptyBody).filterPropertyName = cfg.replicationKey
      ∧ (res.body.getD emptyBody).filterOperator = "GTE"
      ∧ (res.body.getD emptyBody).filterValue = epoch_ts (res.date_filter.getD 0)
      ∧ (res.body.getD emptyBody).sortPropertyName = cfg.replicationKey
      ∧ (res.body.getD emptyBody).sortDirection = "ASCENDING"
      ∧ (res.body.getD emptyBody).limit = 100
      ∧ (res.body.getD emptyBody).properties = cfg.hsProperties := by
  simp only [prepare_request_payload, hmode, eq_self_iff_true, if_true] at hres
  repeat' split at hres
  all_goals first
    | exact Option.noConfusion hres
    | (injection hres with hres
       subst hres
       exact ⟨rfl, rfl, rfl, rfl, rfl, rfl, rfl, rfl, rfl⟩)

/-- Witness for C7: the first SEARCH-mode request of a run (no token). -/
theorem C7_witness :
    (PayloadResult.mk (some 1685577600000)
        (some (searchBodyFields cfgSearchEx none 1685577600000)) 0).body.isSome = true
      ∧ (PayloadResult.mk (some 1685577600000)
          (some (searchBodyFields cfgSearchEx none 1685577600000)) 0).date_filter.isSome = true
      ∧ ((PayloadResult.mk (some 1685577600000)
          (some (searchBodyFields cfgSearchEx none 1685577600000)) 0).body.getD emptyBody).filterPropertyName = cfgSearchEx.replicationKey
      ∧ ((PayloadResult.mk (some 1685577600000)
          (some (searchBodyFields cfgSearchEx none 1685577600000)) 0).body.getD emptyBody).filterOperator = "GTE"
      ∧ ((PayloadResult.mk (some 1685577600000)
          (some (searchBodyFields cfgSearchEx none 1685577600000)) 0).body.getD emptyBody).filterValue
          = epoch_ts ((PayloadResult.mk (some 1685577600000)
              (some (searchBodyFields cfgSearchEx none 1685577600000)) 0).date_filter.getD 0)
      ∧ ((PayloadResult.mk (some 1685577600000)
          (some (searchBodyFields cfgSearchEx none 1685577600000)) 0).body.getD emptyBody).sortPropertyName = cfgSearchEx.replicationKey
      ∧ ((PayloadResult.mk (some 1685577600000)
          (some (searchBodyFields cfgSearchEx none 1685577600000)) 0).body.getD emptyBody).sortDirection = "ASCENDING"
      ∧ ((PayloadResult.mk (some 1685577600000)
          (some (searchBodyFields cfgSearchEx none 1685577600000)) 0).body.getD emptyBody).limit = 100
      ∧ ((PayloadResult.mk (some 1685577600000)
          (some (searchBodyFields cfgSearchEx none 1685577600000)) 0).body.getD emptyBody).properties = cfgSearchEx.hsProperties :=
  C7_search_body_shape cfgSearchEx (some 1685577600000) none
    (PayloadResult.mk (some 1685577600000)
      (some (searchBodyFields cfgSearchEx none 1685577600000)) 0)
    (by decide) (by decide)

/-- C9 counterexample: with a stale progress marker (epoch 0) strictly
below the current date filter (2023-10-01), the rollover sets the date
filter backwards, so the date filter does decrease for this possible
marker value, contradicting the claim's quantification over every
marker. -/
theorem C9_counterexample :
    prepare_request_payload cfgStale (some 1696118400000) (some "9900")
        = some ⟨some 0, some (searchBodyFields cfgStale none 0), 1⟩
      ∧ ¬ ((1696118400000 : PyDateTime) ≤ 0) := by
  constructor
  · decide
  · decide

/-- C9 (amended): the date filter never decreases across a
`prepare_request_payload` call provided the supplied progress marker's
cursor value, whenever the rollover reads it, is at least the current
date filter (which holds for markers produced by the run itself, since
all synced records satisfy the GTE filter). -/
theorem C9_amended_monotone (cfg : StreamCfg) (d : PyDateTime)
    (tok : Option String) (res : PayloadResult)
    (hres : prepare_request_payload cfg (some d) tok = some res)
    (hmark : ∀ m, cfg.progressMarkers = some (some m) → d ≤ m) :
    res.date_filter.isSome = true ∧ d ≤ res.date_filter.getD d := by
  simp only [prepare_request_payload] at hres
  repeat' split at hres
  all_goals first
    | exact Option.noConfusion hres
    | (injection hres with hres
       subst hres
       refine ⟨rfl, ?_⟩
       simp only [Option.getD_some]
       linarith)
    | (injection hres with hres
       subst hres
       refine ⟨rfl, ?_⟩
       simp only [Option.getD_some]
       rename_i next_date_filter heq hne
       exact hmark next_date_filter heq)

/-- Witness for the amended C9: rollover with a marker equal to the date
filter advances the filter by one second. -/
theorem C9_amended_witness :
    (PayloadResult.mk (some (1685577600000 + 1000))
        (some (searchBodyFields cfgEqualMarker none (1685577600000 + 1000))) 2).date_filter.isSome = true
      ∧ (1685577600000 : PyDateTime)
        ≤ (PayloadResult.mk (some (1685577600000 + 1000))
            (some (searchBodyFields cfgEqualMarker none (1685577600000 + 1000))) 2).date_filter.getD 1685577600000 :=
  C9_amended_monotone cfgEqualMarker 1685577600000 (some "9905")
    (PayloadResult.mk (some (1685577600000 + 1000))
      (some (searchBodyFields cfgEqualMarker none (1685577600000 + 1000))) 2)
    (by decide)
    (by
      intro m hm
      have h₁ : some (some (1685577600000 : PyDateTime)) = some (some m) := hm
      rw [Option.some_inj, Option.some_inj] at h₁
      exact le_of_eq h₁)

end TapHubspot
